import Mathlib

set_option maxRecDepth 100000

/-!
Verification of the analysis pipeline of the Fake News Detector
(`src/app.py`, function `analyze_news` together with the report strings it
builds).  The Python code is shallowly embedded: strings are Lean strings,
classifier scores are exact rationals, the two external collaborators
(the similarity retriever and the text-classification pipeline) are passed
in as oracle functions returning `Except` values, and a raised exception is
modelled by the `Except.error` branch.  Python `str.strip`, slicing
`text[:512]`, `max(..., key=score)`, `'X' in s`, `str.upper` and the
`{value:.1%}` format specifier are each given explicit executable
definitions below.
-/

namespace FakeNews

/-- Verdict category of the spec: the binary credibility class.  The green
check-mark branches of `analyze_news` (lines 50-51 and the POSITIVE
fallback of line 58) are CREDIBLE, the red-alarm branches are MISLEADING. -/
inductive Category where
  | CREDIBLE
  | MISLEADING
deriving DecidableEq

/-- Verdict of the spec: category plus the selected score. -/
structure Verdict where
  category : Category
  confidence : ℚ
deriving DecidableEq

/-- Decimal digit character, used to render numbers exactly as Python
string interpolation does. -/
def digitChar (d : Nat) : Char :=
  match d % 10 with
  | 0 => '0' | 1 => '1' | 2 => '2' | 3 => '3' | 4 => '4'
  | 5 => '5' | 6 => '6' | 7 => '7' | 8 => '8' | _ => '9'

/-- Decimal digits of a natural number, most significant first; the fuel
argument dominates the number of divisions by ten. -/
def natDigitsF : Nat → Nat → List Char
  | 0, _ => []
  | fuel + 1, n =>
    if n < 10 then [digitChar n]
    else natDigitsF fuel (n / 10) ++ [digitChar (n % 10)]

/-- Decimal rendering of a natural number, as Python `str` / f-string
interpolation renders `len(docs)`. -/
def natRepr (n : Nat) : String := String.mk (natDigitsF (n + 1) n)

/-- Python `str.strip` on the character list: drop whitespace from both
ends. -/
def stripChars (l : List Char) : List Char :=
  ((l.dropWhile Char.isWhitespace).reverse.dropWhile Char.isWhitespace).reverse

/-- Python `text.strip()`. -/
def pyStrip (s : String) : String := String.mk (stripChars s.data)

/-- Python slicing `s[:n]` (first `n` code points). -/
def pyTake (s : String) (n : Nat) : String := String.mk (s.data.take n)

/-- Python `str.upper()` (ASCII letters, which covers every label the code
compares). -/
def upper (s : String) : String := String.mk (s.data.map Char.toUpper)

/-- Python substring membership `t in s`. -/
def strContains (s t : String) : Bool := decide (t.data <:+: s.data)

/-- Number of tenths of a percent shown by the Python format `{q:.1%}`:
`q * 1000` rounded half-to-even, computed on numerator and denominator.
Floats are modelled as the exact rationals they denote. -/
def percentTenths (q : ℚ) : ℤ :=
  let a := q.num * 1000
  let b : ℤ := (q.den : ℤ)
  let f := Int.fdiv a b
  let r := a - f * b
  if 2 * r < b then f
  else if b < 2 * r then f + 1
  else if f % 2 = 0 then f else f + 1

/-- Python `f"{q:.1%}"`: percentage with one decimal digit. -/
def formatPercent (q : ℚ) : String :=
  natRepr ((percentTenths q).toNat / 10) ++ "." ++
    natRepr ((percentTenths q).toNat % 10) ++ "%"

/-- One step of Python `max(result, key=lambda x: x['score'])`: the
accumulator is replaced only on a strictly larger score, so the first
maximal entry wins. -/
def maxStep (acc y : String × ℚ) : String × ℚ := if acc.2 < y.2 then y else acc

/-- Python `max(result, key=lambda x: x['score'])` on the classification
result (line 46); `none` models the ValueError raised on an empty
sequence. -/
def pymax (r : List (String × ℚ)) : Option (String × ℚ) :=
  match r with
  | [] => none
  | x :: xs => some (xs.foldl maxStep x)

/-- Message of line 35 for empty (all-whitespace) input. -/
def emptyMsg : String := "❌ Please enter some news content to analyze."

/-- Message of line 38 for input of trimmed length below ten. -/
def tooShortMsg : String :=
  "❌ Please provide more substantial news content (at least 10 characters)."

/-- Error report of lines 107-108: any exception from the try block is
rendered with its description and an invitation to retry. -/
def errMsg (e : String) : String :=
  "❌ Error analyzing content: " ++ e ++ "\n\nPlease try again with different text."

/-- Label and colour selection of lines 50-59 from the top-scoring
classifier label. -/
def verdictLabel (bl : String) : String × String :=
  if bl == "LABEL_1" || strContains (upper bl) "REAL" then
    ("✅ LIKELY CREDIBLE", "#22c55e")
  else if bl == "LABEL_0" || strContains (upper bl) "FAKE" then
    ("🚨 POTENTIALLY MISLEADING", "#ef4444")
  else if bl == "POSITIVE" then ("✅ CREDIBLE", "#22c55e")
  else ("🚨 SUSPICIOUS", "#ef4444")

/-- Verdict category determined by the same branch structure as
`verdictLabel`: the two green branches are CREDIBLE, the two red ones
MISLEADING. -/
def categoryOfLabel (bl : String) : Category :=
  if bl == "LABEL_1" || strContains (upper bl) "REAL" then Category.CREDIBLE
  else if bl == "LABEL_0" || strContains (upper bl) "FAKE" then Category.MISLEADING
  else if bl == "POSITIVE" then Category.CREDIBLE
  else Category.MISLEADING

/-- Label Normalizer of the spec: best entry of the classification result
mapped to a Verdict (lines 46-47 and 50-59). -/
def normalize (r : List (String × ℚ)) : Option Verdict :=
  (pymax r).map fun b => Verdict.mk (categoryOfLabel b.1) b.2

/-- Recommendation block appended on lines 78-86. -/
def warnBlock : String :=
  "\n### ⚠️ RECOMMENDATIONS\n\n• **Verify with reputable sources** like AP News, Reuters, or BBC\n• **Check the publication date** - old news can be repurposed\n• **Look for official statements** from relevant authorities\n• **Reverse image search** any accompanying photos\n• **Use fact-checking sites** like Snopes or FactCheck.org\n"

/-- Best-practices block appended on lines 88-96. -/
def bestBlock : String :=
  "\n### 💡 BEST PRACTICES\n\n• **Cross-reference** with multiple reliable sources\n• **Check author credentials** and publication history\n• **Be aware of potential biases** in the reporting\n• **Look for supporting evidence** and citations\n• **Consider the tone** - credible news is typically neutral\n"

/-- Educational tip appended on lines 99-103. -/
def footerTip : String :=
  "\n---\n\n**🎓 Digital Literacy Tip:** Always approach online information with healthy skepticism and verify before sharing.\n"

/-- Advice-block selection of line 77. -/
def adviceBlock (label : String) : String :=
  if strContains label "MISLEADING" || strContains label "SUSPICIOUS" then warnBlock
  else bestBlock

/-- Leading f-string of the report (lines 62-74). -/
def reportHeader (label color : String) (confidence : ℚ) (nDocs : Nat) : String :=
  "\n## 📊 ANALYSIS RESULTS\n\n<div style=\x27background-color: " ++ color ++
    "20; padding: 15px; border-radius: 10px; border-left: 4px solid " ++ color ++
    ";\x27>\n<h3 style=\x27color: " ++ color ++ "; margin: 0;\x27>" ++ label ++
    "</h3>\n</div>\n\n**Confidence Level:** " ++ formatPercent confidence ++
    "  \n**Similar Patterns Found:** " ++ natRepr nDocs ++
    " matches in our database\n\n### 🔍 ANALYSIS\nThis content appears **" ++
    (if strContains label "CREDIBLE" then "credible" else "suspicious") ++
    "** based on linguistic patterns and comparison with our database of verified news examples.\n"

/-- Full successful report of lines 62-103 from the best classification
entry and the retrieved-document count. -/
def renderReport (best : String × ℚ) (nDocs : Nat) : String :=
  reportHeader (verdictLabel best.1).1 (verdictLabel best.1).2 best.2 nDocs ++
    adviceBlock (verdictLabel best.1).1 ++ footerTip

/-- The `analyze_news` function of lines 30-108.  The similarity retriever
(line 42) and the classification pipeline (line 45, already including the
trailing `[0]` projection) are oracle arguments; `Except.error` models a
raised exception, and both calls sit in one try block whose handler is
`errMsg`. -/
def analyze_news (retriever : String → Except String (List String))
    (llm : String → Except String (List (String × ℚ))) (text : String) : String :=
  if pyStrip text = "" then emptyMsg
  else if (pyStrip text).length < 10 then tooShortMsg
  else
    match retriever text with
    | Except.error e => errMsg e
    | Except.ok docs =>
      match llm (pyTake text 512) with
      | Except.error e => errMsg e
      | Except.ok result =>
        match pymax result with
        | none => errMsg "max() arg is an empty sequence"
        | some best => renderReport best docs.length

/-! Helper lemmas about the string plumbing. -/

lemma strData_append (s t : String) : (s ++ t).data = s.data ++ t.data := rfl

lemma not_mem_append {c : Char} {l₁ l₂ : List Char} (h1 : c ∉ l₁) (h2 : c ∉ l₂) :
    c ∉ l₁ ++ l₂ := fun h => (List.mem_append.mp h).elim h1 h2

lemma digitChar_mem (d : Nat) :
    digitChar d ∈ ['0', '1', '2', '3', '4', '5', '6', '7', '8', '9'] := by
  unfold digitChar
  split <;> decide

lemma natDigitsF_mem (fuel : Nat) : ∀ (n : Nat), ∀ c ∈ natDigitsF fuel n,
    c ∈ ['0', '1', '2', '3', '4', '5', '6', '7', '8', '9'] := by
  induction fuel with
  | zero => intro n c hc; simp [natDigitsF] at hc
  | succ f ih =>
    intro n c hc
    unfold natDigitsF at hc
    split at hc
    · rw [List.mem_singleton] at hc
      subst hc
      exact digitChar_mem n
    · rcases List.mem_append.mp hc with h1 | h1
      · exact ih _ c h1
      · rw [List.mem_singleton] at h1
        subst h1
        exact digitChar_mem _

lemma natRepr_mem (n : Nat) : ∀ c ∈ (natRepr n).data,
    c ∈ ['0', '1', '2', '3', '4', '5', '6', '7', '8', '9'] :=
  natDigitsF_mem (n + 1) n

lemma digit_lt128 {c : Char}
    (h : c ∈ ['0', '1', '2', '3', '4', '5', '6', '7', '8', '9']) : c.toNat < 128 := by
  fin_cases h <;> decide

lemma natRepr_lt128 (n : Nat) : ∀ c ∈ (natRepr n).data, c.toNat < 128 :=
  fun c hc => digit_lt128 (natRepr_mem n c hc)

lemma formatPercent_lt128 (q : ℚ) : ∀ c ∈ (formatPercent q).data, c.toNat < 128 := by
  intro c hc
  simp only [formatPercent, strData_append, List.mem_append] at hc
  rcases hc with ((hc | hc) | hc) | hc
  · exact natRepr_lt128 _ c hc
  · simp only [show (".".data = ['.']) from rfl, List.mem_singleton] at hc
    subst hc
    decide
  · exact natRepr_lt128 _ c hc
  · simp only [show ("%".data = ['%']) from rfl, List.mem_singleton] at hc
    subst hc
    decide

/-! Helper lemmas about `pymax`, the embedded Python `max` with the score
key: the result is a member, bounds every score, and is the first entry
attaining the maximum. -/

lemma foldl_maxStep_spec (xs : List (String × ℚ)) : ∀ a : String × ℚ,
    (xs.foldl maxStep a ∈ a :: xs) ∧
    (∀ y ∈ a :: xs, y.2 ≤ (xs.foldl maxStep a).2) ∧
    (xs.foldl maxStep a = a ∨
      ∃ l₁ l₂, xs = l₁ ++ (xs.foldl maxStep a) :: l₂ ∧
        ∀ y ∈ a :: l₁, y.2 < (xs.foldl maxStep a).2) := by
  induction xs with
  | nil =>
    intro a
    refine ⟨List.mem_singleton_self a, ?_, Or.inl rfl⟩
    intro y hy
    rw [List.mem_singleton] at hy
    subst hy
    exact le_refl _
  | cons y ys ih =>
    intro a
    rw [List.foldl_cons]
    by_cases h : a.2 < y.2
    · have hstep : maxStep a y = y := by simp [maxStep, h]
      rw [hstep]
      obtain ⟨hmem, hge, hfirst⟩ := ih y
      refine ⟨List.mem_cons_of_mem a hmem, ?_, ?_⟩
      · intro z hz
        rcases List.mem_cons.mp hz with rfl | hz'
        · exact le_trans (le_of_lt h) (hge y (List.mem_cons_self _ _))
        · exact hge z hz'
      · rcases hfirst with h1 | ⟨l₁, l₂, hsplit, hlt⟩
        · refine Or.inr ⟨[], ys, by rw [h1]; rfl, ?_⟩
          intro z hz
          rw [List.mem_singleton] at hz
          subst hz
          rw [h1]
          exact h
        · refine Or.inr ⟨y :: l₁, l₂, by rw [List.cons_append, ← hsplit], ?_⟩
          intro z hz
          rcases List.mem_cons.mp hz with rfl | hz'
          · exact lt_trans h (hlt y (List.mem_cons_self _ _))
          · exact hlt z hz'
    · have hstep : maxStep a y = a := by simp [maxStep, h]
      rw [hstep]
      obtain ⟨hmem, hge, hfirst⟩ := ih a
      have hy2 : y.2 ≤ a.2 := le_of_not_lt h
      refine ⟨?_, ?_, ?_⟩
      · rcases List.mem_cons.mp hmem with h1 | h1
        · rw [h1]
          exact List.mem_cons_self _ _
        · exact List.mem_cons_of_mem a (List.mem_cons_of_mem y h1)
      · intro z hz
        rcases List.mem_cons.mp hz with rfl | hz'
        · exact hge z (List.mem_cons_self _ _)
        · rcases List.mem_cons.mp hz' with rfl | hz''
          · exact le_trans hy2 (hge a (List.mem_cons_self _ _))
          · exact hge z (List.mem_cons_of_mem a hz'')
      · rcases hfirst with h1 | ⟨l₁, l₂, hsplit, hlt⟩
        · exact Or.inl h1
        · refine Or.inr ⟨y :: l₁, l₂, by rw [List.cons_append, ← hsplit], ?_⟩
          intro z hz
          rcases List.mem_cons.mp hz with rfl | hz'
          · exact hlt z (List.mem_cons_self _ _)
          · rcases List.mem_cons.mp hz' with rfl | hz''
            · exact lt_of_le_of_lt hy2 (hlt a (List.mem_cons_self _ _))
            · exact hlt z (List.mem_cons_of_mem a hz'')

lemma pymax_spec {l : List (String × ℚ)} {b : String × ℚ} (h : pymax l = some b) :
    b ∈ l ∧ (∀ y ∈ l, y.2 ≤ b.2) ∧
      ∃ l₁ l₂, l = l₁ ++ b :: l₂ ∧ ∀ y ∈ l₁, y.2 < b.2 := by
  match l with
  | [] => simp [pymax] at h
  | x :: xs =>
    have hb : xs.foldl maxStep x = b := by
      simpa [pymax] using h
    obtain ⟨hmem, hge, hfirst⟩ := foldl_maxStep_spec xs x
    rw [hb] at hmem hge hfirst
    refine ⟨hmem, hge, ?_⟩
    rcases hfirst with h1 | ⟨l₁, l₂, hsplit, hlt⟩
    · refine ⟨[], xs, by rw [h1]; rfl, ?_⟩
      intro y hy
      simp at hy
    · refine ⟨x :: l₁, l₂, by rw [List.cons_append, ← hsplit], hlt⟩

lemma pymax_eq_of_unique {l : List (String × ℚ)} {e : String × ℚ}
    (he : e ∈ l) (hu : ∀ x ∈ l, x ≠ e → x.2 < e.2) : pymax l = some e := by
  match l with
  | [] => exact absurd he (List.not_mem_nil e)
  | x :: xs =>
    have h : pymax (x :: xs) = some (xs.foldl maxStep x) := rfl
    obtain ⟨hmem, hge, _⟩ := pymax_spec h
    by_cases hb : xs.foldl maxStep x = e
    · rw [h, hb]
    · exact absurd (hge e he) (not_le.mpr (hu _ hmem hb))

lemma beq_false_of_ne {a b : String} (h : a ≠ b) : (a == b) = false := by
  cases hb : a == b with
  | false => rfl
  | true => exact absurd (eq_of_beq hb) h

lemma categoryOfLabel_cred {bl : String}
    (h : bl = "LABEL_1" ∨ strContains (upper bl) "REAL" = true) :
    categoryOfLabel bl = Category.CREDIBLE := by
  have hc : (bl == "LABEL_1" || strContains (upper bl) "REAL") = true := by
    rcases h with h | h
    · subst h
      rfl
    · rw [h, Bool.or_true]
  simp [categoryOfLabel, hc]

lemma categoryOfLabel_mis {bl : String}
    (h1 : bl ≠ "LABEL_1") (h2 : strContains (upper bl) "REAL" = false)
    (h : bl = "LABEL_0" ∨ strContains (upper bl) "FAKE" = true) :
    categoryOfLabel bl = Category.MISLEADING := by
  have e1 : (bl == "LABEL_1") = false := beq_false_of_ne h1
  have hc : (bl == "LABEL_0" || strContains (upper bl) "FAKE") = true := by
    rcases h with h | h
    · subst h
      rfl
    · rw [h, Bool.or_true]
  simp [categoryOfLabel, e1, h2, hc]

lemma verdictLabel_cases (bl : String) :
    (verdictLabel bl = ("✅ LIKELY CREDIBLE", "#22c55e") ∧
      categoryOfLabel bl = Category.CREDIBLE) ∨
    (verdictLabel bl = ("🚨 POTENTIALLY MISLEADING", "#ef4444") ∧
      categoryOfLabel bl = Category.MISLEADING) ∨
    (verdictLabel bl = ("✅ CREDIBLE", "#22c55e") ∧
      categoryOfLabel bl = Category.CREDIBLE) ∨
    (verdictLabel bl = ("🚨 SUSPICIOUS", "#ef4444") ∧
      categoryOfLabel bl = Category.MISLEADING) := by
  unfold verdictLabel categoryOfLabel
  by_cases c1 : (bl == "LABEL_1" || strContains (upper bl) "REAL") = true
  · simp [c1]
  · rw [Bool.not_eq_true] at c1
    by_cases c2 : (bl == "LABEL_0" || strContains (upper bl) "FAKE") = true
    · simp [c1, c2]
    · rw [Bool.not_eq_true] at c2
      by_cases c3 : (bl == "POSITIVE") = true
      · simp [c1, c2, c3]
      · rw [Bool.not_eq_true] at c3
        simp [c1, c2, c3]

lemma header_no_marker (bl : String) (q : ℚ) (n : Nat) :
    '⚠' ∉ (reportHeader (verdictLabel bl).1 (verdictLabel bl).2 q n).data ∧
    '💡' ∉ (reportHeader (verdictLabel bl).1 (verdictLabel bl).2 q n).data := by
  rcases verdictLabel_cases bl with ⟨h1, _⟩ | ⟨h1, _⟩ | ⟨h1, _⟩ | ⟨h1, _⟩ <;>
  rw [h1] <;>
  constructor <;>
  · simp only [reportHeader, strData_append]
    repeat' apply not_mem_append
    all_goals first
      | decide
      | (intro hm; exact absurd (formatPercent_lt128 _ _ hm) (by decide))
      | (intro hm; exact absurd (natRepr_lt128 _ _ hm) (by decide))

/-- C2: the verdict comes from the maximum-score entry: a best label equal
to LABEL_1 or containing "real" case-insensitively gives category CREDIBLE;
otherwise LABEL_0 or a label containing "fake" gives MISLEADING, with the
selected score as confidence, rendered as a one-decimal percentage; in
particular the two spec scenarios hold, the second producing the
fact-checking advice block in its report. -/
theorem normalize_verdict_from_best (r : List (String × ℚ)) (b : String × ℚ)
    (h : pymax r = some b) :
    ((b.1 = "LABEL_1" ∨ strContains (upper b.1) "REAL" = true) →
      normalize r = some (Verdict.mk Category.CREDIBLE b.2)) ∧
    (b.1 ≠ "LABEL_1" → strContains (upper b.1) "REAL" = false →
      (b.1 = "LABEL_0" ∨ strContains (upper b.1) "FAKE" = true) →
      normalize r = some (Verdict.mk Category.MISLEADING b.2)) ∧
    (normalize [("LABEL_1", mkRat 92 100), ("LABEL_0", mkRat 8 100)]
        = some (Verdict.mk Category.CREDIBLE (mkRat 92 100)) ∧
      formatPercent (mkRat 92 100) = "92.0%") ∧
    (normalize [("FAKE", mkRat 81 100), ("REAL", mkRat 19 100)]
        = some (Verdict.mk Category.MISLEADING (mkRat 81 100)) ∧
      formatPercent (mkRat 81 100) = "81.0%" ∧
      warnBlock.data <:+: (renderReport ("FAKE", mkRat 81 100) 0).data) := by
  refine ⟨?_, ?_, by decide, by decide⟩
  · intro hc
    simp [normalize, h, categoryOfLabel_cred hc]
  · intro h1 h2 hc
    simp [normalize, h, categoryOfLabel_mis h1 h2 hc]

/-- Witness for C2 at the two scenario inputs. -/
theorem normalize_verdict_from_best_witness :
    normalize [("LABEL_1", mkRat 92 100), ("LABEL_0", mkRat 8 100)]
        = some (Verdict.mk Category.CREDIBLE (mkRat 92 100)) ∧
    normalize [("FAKE", mkRat 81 100), ("REAL", mkRat 19 100)]
        = some (Verdict.mk Category.MISLEADING (mkRat 81 100)) := by
  have h1 := normalize_verdict_from_best
    [("LABEL_1", mkRat 92 100), ("LABEL_0", mkRat 8 100)]
    ("LABEL_1", mkRat 92 100) (by decide)
  have h2 := normalize_verdict_from_best
    [("FAKE", mkRat 81 100), ("REAL", mkRat 19 100)]
    ("FAKE", mkRat 81 100) (by decide)
  exact ⟨h1.1 (Or.inl rfl), h2.2.1 (by decide) (by decide) (Or.inr (by decide))⟩

/-- C3: the selected entry of `pymax` is a member attaining the maximum
score, placed after strictly smaller scores only (first-encountered
tie-break); and whenever one entry strictly dominates all others, any
permutation of the list selects that same entry, so the category is
independent of the order of the remaining entries. -/
theorem pymax_tie_break_and_permutation :
    (∀ (l : List (String × ℚ)) (b : String × ℚ), pymax l = some b →
      b ∈ l ∧ (∀ y ∈ l, y.2 ≤ b.2) ∧
        ∃ l₁ l₂, l = l₁ ++ b :: l₂ ∧ ∀ y ∈ l₁, y.2 < b.2) ∧
    (∀ (l l' : List (String × ℚ)) (e : String × ℚ), l.Perm l' → e ∈ l →
      (∀ x ∈ l, x ≠ e → x.2 < e.2) →
      pymax l = some e ∧ pymax l' = some e ∧
        (normalize l).map Verdict.category = (normalize l').map Verdict.category) := by
  constructor
  · exact fun l b h => pymax_spec h
  · intro l l' e hperm he hu
    have h1 := pymax_eq_of_unique he hu
    have h2 := pymax_eq_of_unique (hperm.mem_iff.mp he)
      (fun x hx => hu x (hperm.mem_iff.mpr hx))
    exact ⟨h1, h2, by simp [normalize, h1, h2]⟩

/-- Witness for C3: a tie resolved to the first entry, and a permuted pair
selecting the same dominant entry. -/
theorem pymax_tie_break_and_permutation_witness :
    (("A", mkRat 1 2) ∈ [("A", mkRat 1 2), ("B", mkRat 1 2)]) ∧
    pymax [("FAKE", mkRat 81 100), ("REAL", mkRat 19 100)]
      = some ("FAKE", mkRat 81 100) ∧
    pymax [("REAL", mkRat 19 100), ("FAKE", mkRat 81 100)]
      = some ("FAKE", mkRat 81 100) := by
  have h0 := pymax_tie_break_and_permutation.1
    [("A", mkRat 1 2), ("B", mkRat 1 2)] ("A", mkRat 1 2) (by decide)
  have h := pymax_tie_break_and_permutation.2
    [("FAKE", mkRat 81 100), ("REAL", mkRat 19 100)]
    [("REAL", mkRat 19 100), ("FAKE", mkRat 81 100)]
    ("FAKE", mkRat 81 100)
    (List.Perm.swap ("REAL", mkRat 19 100) ("FAKE", mkRat 81 100) [])
    (by decide) (by decide)
  exact ⟨h0.1, h.1, h.2.1⟩

/-- C4: empty-after-trimming input yields the empty-input message, trimmed
length below ten yields the too-short message, and in both cases the result
is independent of the retriever and classifier oracles (no downstream call
is observable). -/
theorem analyze_validation (text : String)
    (retr retr' : String → Except String (List String))
    (llm llm' : String → Except String (List (String × ℚ))) :
    (pyStrip text = "" →
      analyze_news retr llm text = emptyMsg ∧
      analyze_news retr llm text = analyze_news retr' llm' text) ∧
    (pyStrip text ≠ "" → (pyStrip text).length < 10 →
      analyze_news retr llm text = tooShortMsg ∧
      analyze_news retr llm text = analyze_news retr' llm' text) := by
  constructor
  · intro h
    constructor <;> simp [analyze_news, h]
  · intro h1 h2
    constructor <;> simp [analyze_news, h1, h2]

/-- Witness for C4 on a whitespace input and a nine-character input. -/
theorem analyze_validation_witness :
    analyze_news (fun _ => Except.ok []) (fun _ => Except.ok []) "   " = emptyMsg ∧
    analyze_news (fun _ => Except.ok []) (fun _ => Except.ok []) "Too short" = tooShortMsg := by
  refine ⟨?_, ?_⟩
  · exact ((analyze_validation "   " (fun _ => Except.ok []) (fun _ => Except.ok [])
      (fun _ => Except.ok []) (fun _ => Except.ok [])).1 (by decide)).1
  · exact ((analyze_validation "Too short" (fun _ => Except.ok []) (fun _ => Except.ok [])
      (fun _ => Except.ok []) (fun _ => Except.ok [])).2 (by decide) (by decide)).1

lemma renderReport_head (b : String × ℚ) (n : Nat) :
    (renderReport b n).data.head? = some '\n' := rfl

/-- C1 counterexample: with a failing retriever and a healthy classifier on
valid input, `analyze_news` returns the error report, not the
classifier-only report with zero matches that the claim promises. -/
theorem analyze_retrieval_error_counterexample :
    analyze_news (fun _ => Except.error "connection refused")
      (fun _ => Except.ok [("LABEL_1", mkRat 92 100)])
      "Government announces new policy today" = errMsg "connection refused" ∧
    errMsg "connection refused" ≠ renderReport ("LABEL_1", mkRat 92 100) 0 := by
  exact ⟨by decide, by decide⟩

/-- C1 (amended): a similarity-lookup error is caught by the one try-except
of `analyze_news` and converted into the error report; the analysis does
not proceed to a classifier-only report. -/
theorem analyze_retrieval_error (text e : String)
    (llm : String → Except String (List (String × ℚ)))
    (h1 : pyStrip text ≠ "") (h2 : ¬(pyStrip text).length < 10) :
    analyze_news (fun _ => Except.error e) llm text = errMsg e := by
  simp only [analyze_news]
  rw [if_neg h1, if_neg h2]

/-- Witness for the amended C1. -/
theorem analyze_retrieval_error_witness :
    analyze_news (fun _ => Except.error "index unavailable")
      (fun _ => Except.ok []) "0123456789" = errMsg "index unavailable" :=
  analyze_retrieval_error "0123456789" "index unavailable" (fun _ => Except.ok [])
    (by decide) (by decide)

/-- C5 counterexample: the engine forwards the RAW text, not the trimmed
text.  With twelve characters of input whose trimmed form has ten, a
retriever reporting one document per character of its argument makes the
report say twelve matches, not the ten the claim implies. -/
theorem analyze_forwards_raw_counterexample :
    analyze_news (fun s => Except.ok (List.replicate s.length ""))
      (fun _ => Except.ok [("LABEL_1", mkRat 92 100)]) "  abcdefghij"
      = renderReport ("LABEL_1", mkRat 92 100) 12 ∧
    renderReport ("LABEL_1", mkRat 92 100) 12 ≠ renderReport ("LABEL_1", mkRat 92 100) 10 ∧
    (pyStrip "  abcdefghij").length = 10 := by
  exact ⟨by decide, by decide, by decide⟩

/-- C5 (amended): after validation the raw, untrimmed input is what flows
downstream: the result depends on the oracles only through the retriever
applied to the raw text and the classifier applied to the raw text cut to
512 characters, and that truncation has length at most 512. -/
theorem analyze_forwards_raw (text : String)
    (retr retr' : String → Except String (List String))
    (llm llm' : String → Except String (List (String × ℚ)))
    (h1 : pyStrip text ≠ "") (h2 : ¬(pyStrip text).length < 10)
    (hr : retr text = retr' text)
    (hl : llm (pyTake text 512) = llm' (pyTake text 512)) :
    analyze_news retr llm text = analyze_news retr' llm' text ∧
    (pyTake text 512).length ≤ 512 := by
  constructor
  · simp only [analyze_news, if_neg h1, if_neg h2]
    rw [hr, hl]
  · show (text.data.take 512).length ≤ 512
    rw [List.length_take]
    exact min_le_left _ _

/-- Witness for the amended C5: two oracle pairs agreeing only at the
forwarded texts produce identical analyses. -/
theorem analyze_forwards_raw_witness :
    analyze_news (fun _ => Except.ok []) (fun _ => Except.ok [("REAL", mkRat 3 4)])
        "0123456789"
      = analyze_news
          (fun s => if s = "0123456789" then Except.ok [] else Except.error "other")
          (fun s => if s = "0123456789" then Except.ok [("REAL", mkRat 3 4)]
            else Except.error "other")
          "0123456789" ∧
    (pyTake "0123456789" 512).length ≤ 512 :=
  analyze_forwards_raw "0123456789" _ _ _ _ (by decide) (by decide) rfl rfl

/-- C8: when the retriever succeeds and the classifier raises, the analysis
returns the error report (describing the failure and inviting retry, with
no retry performed), and the output is not any rendered verdict report. -/
theorem analyze_classifier_error (text e : String) (docs : List String)
    (retr : String → Except String (List String))
    (llm : String → Except String (List (String × ℚ)))
    (h1 : pyStrip text ≠ "") (h2 : ¬(pyStrip text).length < 10)
    (hr : retr text = Except.ok docs) (hl : llm (pyTake text 512) = Except.error e) :
    analyze_news retr llm text = errMsg e ∧
    ∀ (b : String × ℚ) (n : Nat), analyze_news retr llm text ≠ renderReport b n := by
  have hmain : analyze_news retr llm text = errMsg e := by
    simp only [analyze_news]
    rw [if_neg h1, if_neg h2, hr, hl]
  refine ⟨hmain, ?_⟩
  intro b n hcontra
  rw [hmain] at hcontra
  have hx : some '❌' = some '\n' := by
    rw [show some '❌' = (errMsg e).data.head? from rfl, hcontra, renderReport_head]
  exact absurd hx (by decide)

/-- Witness for C8. -/
theorem analyze_classifier_error_witness :
    analyze_news (fun _ => Except.ok []) (fun _ => Except.error "model unreachable")
      "0123456789x" = errMsg "model unreachable" :=
  (analyze_classifier_error "0123456789x" "model unreachable" []
    (fun _ => Except.ok []) (fun _ => Except.error "model unreachable")
    (by decide) (by decide) rfl rfl).1

/-- C9: the report renderer is deterministic: the same best classification
entry (equivalently, the same classification result) and the same match
count always give byte-identical report text; the embedded renderer is a
pure function of these two arguments, with no other dependence. -/
theorem renderReport_deterministic (b b' : String × ℚ) (r r' : List (String × ℚ))
    (n n' : Nat) (hb : b = b') (hr : r = r') (hn : n = n') :
    renderReport b n = renderReport b' n' ∧
    (pymax r).map (fun x => renderReport x n)
      = (pymax r').map (fun x => renderReport x n') := by
  subst hb
  subst hr
  subst hn
  exact ⟨rfl, rfl⟩

/-- Witness for C9. -/
theorem renderReport_deterministic_witness :
    renderReport ("LABEL_1", mkRat 92 100) 3 = renderReport ("LABEL_1", mkRat 92 100) 3 :=
  (renderReport_deterministic ("LABEL_1", mkRat 92 100) ("LABEL_1", mkRat 92 100)
    [("LABEL_1", mkRat 92 100)] [("LABEL_1", mkRat 92 100)] 3 3 rfl rfl rfl).1

/-- C6 counterexample: NEUTRAL matches none of the recognized markers, yet
the code silently assigns it the suspicious (misleading-category) verdict;
no configured label-to-category table exists anywhere in the program. -/
theorem unrecognized_label_counterexample :
    ("NEUTRAL" ≠ "LABEL_1" ∧ "NEUTRAL" ≠ "LABEL_0" ∧
      strContains (upper "NEUTRAL") "REAL" = false ∧
      strContains (upper "NEUTRAL") "FAKE" = false) ∧
    normalize [("NEUTRAL", mkRat 7 10)]
      = some (Verdict.mk Category.MISLEADING (mkRat 7 10)) ∧
    (verdictLabel "NEUTRAL").1 = "🚨 SUSPICIOUS" := by
  exact ⟨by decide, by decide, by decide⟩

/-- C6 (amended): an unrecognized top label falls through to the sentiment
fallback: POSITIVE is assigned CREDIBLE and every other unrecognized label
is silently assigned the suspicious, misleading-category verdict. -/
theorem unrecognized_label_fallback (bl : String)
    (h1 : bl ≠ "LABEL_1") (h2 : strContains (upper bl) "REAL" = false)
    (h3 : bl ≠ "LABEL_0") (h4 : strContains (upper bl) "FAKE" = false) :
    (bl = "POSITIVE" →
      verdictLabel bl = ("✅ CREDIBLE", "#22c55e") ∧
      categoryOfLabel bl = Category.CREDIBLE) ∧
    (bl ≠ "POSITIVE" →
      verdictLabel bl = ("🚨 SUSPICIOUS", "#ef4444") ∧
      categoryOfLabel bl = Category.MISLEADING) := by
  have e1 : (bl == "LABEL_1") = false := beq_false_of_ne h1
  have e3 : (bl == "LABEL_0") = false := beq_false_of_ne h3
  constructor
  · intro h
    subst h
    exact ⟨by decide, by decide⟩
  · intro h
    have e5 : (bl == "POSITIVE") = false := beq_false_of_ne h
    constructor <;> simp [verdictLabel, categoryOfLabel, e1, e3, h2, h4, e5]

/-- Witness for the amended C6. -/
theorem unrecognized_label_fallback_witness :
    verdictLabel "NEUTRAL" = ("🚨 SUSPICIOUS", "#ef4444") ∧
    verdictLabel "POSITIVE" = ("✅ CREDIBLE", "#22c55e") := by
  have hN := unrecognized_label_fallback "NEUTRAL"
    (by decide) (by decide) (by decide) (by decide)
  have hP := unrecognized_label_fallback "POSITIVE"
    (by decide) (by decide) (by decide) (by decide)
  exact ⟨(hN.2 (by decide)).1, (hP.1 rfl).1⟩

/-- C7 counterexample: two successful reports with the same CREDIBLE
category carry different headline labels, so the headline is not one of
exactly two fixed strings keyed by category. -/
theorem headline_two_strings_counterexample :
    categoryOfLabel "LABEL_1" = Category.CREDIBLE ∧
    categoryOfLabel "POSITIVE" = Category.CREDIBLE ∧
    (verdictLabel "LABEL_1").1 = "✅ LIKELY CREDIBLE" ∧
    (verdictLabel "POSITIVE").1 = "✅ CREDIBLE" ∧
    (verdictLabel "LABEL_1").1 ≠ (verdictLabel "POSITIVE").1 ∧
    renderReport ("LABEL_1", mkRat 9 10) 0 ≠ renderReport ("POSITIVE", mkRat 9 10) 0 := by
  exact ⟨by decide, by decide, by decide, by decide, by decide, by decide⟩

/-- C7 (amended): the headline label is always one of exactly four fixed
strings, two per category, and the advice block is keyed by the category
alone: the warning block for MISLEADING, the best-practices block for
CREDIBLE. -/
theorem headline_four_strings (bl : String) :
    ((verdictLabel bl).1 = "✅ LIKELY CREDIBLE" ∨
      (verdictLabel bl).1 = "🚨 POTENTIALLY MISLEADING" ∨
      (verdictLabel bl).1 = "✅ CREDIBLE" ∨
      (verdictLabel bl).1 = "🚨 SUSPICIOUS") ∧
    (categoryOfLabel bl = Category.CREDIBLE ↔
      ((verdictLabel bl).1 = "✅ LIKELY CREDIBLE" ∨
        (verdictLabel bl).1 = "✅ CREDIBLE")) ∧
    adviceBlock (verdictLabel bl).1 =
      (if categoryOfLabel bl = Category.MISLEADING then warnBlock else bestBlock) := by
  rcases verdictLabel_cases bl with ⟨h1, h2⟩ | ⟨h1, h2⟩ | ⟨h1, h2⟩ | ⟨h1, h2⟩ <;>
    rw [h1, h2] <;>
    exact ⟨by decide, by decide, by decide⟩

/-- C10: a successful report contains the warning advice block exactly when
the headline label contains MISLEADING or SUSPICIOUS, contains the
best-practices block exactly otherwise (so exactly one of the two), and
always ends with the digital-literacy footer. -/
theorem report_advice_blocks (b : String × ℚ) (n : Nat) :
    (warnBlock.data <:+: (renderReport b n).data ↔
      (strContains (verdictLabel b.1).1 "MISLEADING" ||
        strContains (verdictLabel b.1).1 "SUSPICIOUS") = true) ∧
    (bestBlock.data <:+: (renderReport b n).data ↔
      ¬(strContains (verdictLabel b.1).1 "MISLEADING" ||
        strContains (verdictLabel b.1).1 "SUSPICIOUS") = true) ∧
    ∃ p : String, renderReport b n = p ++ footerTip := by
  have hrep : renderReport b n
      = reportHeader (verdictLabel b.1).1 (verdictLabel b.1).2 b.2 n ++
        adviceBlock (verdictLabel b.1).1 ++ footerTip := rfl
  by_cases hcond : (strContains (verdictLabel b.1).1 "MISLEADING" ||
      strContains (verdictLabel b.1).1 "SUSPICIOUS") = true
  · have hadv : adviceBlock (verdictLabel b.1).1 = warnBlock := by
      simp [adviceBlock, hcond]
    have hwarn : warnBlock.data <:+: (renderReport b n).data := by
      rw [hrep, hadv]
      refine ⟨(reportHeader (verdictLabel b.1).1 (verdictLabel b.1).2 b.2 n).data,
        footerTip.data, ?_⟩
      simp [strData_append]
    have hnobest : ¬ bestBlock.data <:+: (renderReport b n).data := by
      intro hinf
      have hmem : '💡' ∈ (renderReport b n).data := hinf.subset (by decide)
      rw [hrep, strData_append, strData_append, hadv] at hmem
      rcases List.mem_append.mp hmem with hm | hm
      · rcases List.mem_append.mp hm with hm' | hm'
        · exact (header_no_marker b.1 b.2 n).2 hm'
        · exact absurd hm' (by decide)
      · exact absurd hm (by decide)
    exact ⟨⟨fun _ => hcond, fun _ => hwarn⟩,
      ⟨fun hinf => absurd hinf hnobest, fun hmis => absurd hcond hmis⟩, ⟨_, hrep⟩⟩
  · have hadv : adviceBlock (verdictLabel b.1).1 = bestBlock := by
      simp [adviceBlock, hcond]
    have hbest : bestBlock.data <:+: (renderReport b n).data := by
      rw [hrep, hadv]
      refine ⟨(reportHeader (verdictLabel b.1).1 (verdictLabel b.1).2 b.2 n).data,
        footerTip.data, ?_⟩
      simp [strData_append]
    have hnowarn : ¬ warnBlock.data <:+: (renderReport b n).data := by
      intro hinf
      have hmem : '⚠' ∈ (renderReport b n).data := hinf.subset (by decide)
      rw [hrep, strData_append, strData_append, hadv] at hmem
      rcases List.mem_append.mp hmem with hm | hm
      · rcases List.mem_append.mp hm with hm' | hm'
        · exact (header_no_marker b.1 b.2 n).1 hm'
        · exact absurd hm' (by decide)
      · exact absurd hm (by decide)
    exact ⟨⟨fun hinf => absurd hinf hnowarn, fun hc => absurd hc hcond⟩,
      ⟨fun _ => hcond, fun _ => hbest⟩, ⟨_, hrep⟩⟩

/-- Witness for C10: a misleading report carries the warning block, a
credible report carries the best-practices block. -/
theorem report_advice_blocks_witness :
    warnBlock.data <:+: (renderReport ("FAKE", mkRat 81 100) 3).data ∧
    bestBlock.data <:+: (renderReport ("LABEL_1", mkRat 92 100) 3).data :=
  ⟨(report_advice_blocks ("FAKE", mkRat 81 100) 3).1.mpr (by decide),
    (report_advice_blocks ("LABEL_1", mkRat 92 100) 3).2.1.mpr (by decide)⟩

end FakeNews
